import Mathlib

/-!
Verification of the Food-App-Dashboard front-end fragment: the `ApiService`
HTTP client wrapper (src/services/api.ts) and the `ForgotPasswordPage`
submit handler (src/components/ForgotPasswordPage.tsx).

The TypeScript code is shallowly embedded: JavaScript runtime values that can
appear as parsed JSON bodies are modelled by `JsVal`, JavaScript truthiness by
`jsTruthy`, property access (which throws a TypeError on null/undefined) by
`jsMember`, and the string coercion performed by the `Error` constructor by
`jsToString`.  The network is abstracted by a `FetchOutcome` parameter: either
the `fetch` promise rejects with a JavaScript error, or it resolves with an
`HttpResponse` carrying the status, the content-type header, and the bodies
that `response.json()` / `response.text()` would produce.
-/

/-- A JavaScript runtime value, as relevant to the client wrapper: `undefined`
models the JavaScript value `undefined` (the result of reading an absent
property); the other constructors model the values JSON parsing can yield.
Object fields are listed with distinct keys, as produced by `JSON.parse`. -/
inductive JsVal where
  | undefined : JsVal
  | null : JsVal
  | bool : Bool → JsVal
  | num : Int → JsVal
  | str : String → JsVal
  | arr : List JsVal → JsVal
  | obj : List (String × JsVal) → JsVal

/-- JavaScript truthiness of a value, as used by `if (x)` and `x || y`.
(`NaN` and floating-point subtleties are not modelled; numbers are integers.) -/
def jsTruthy : JsVal → Bool
  | .undefined => false
  | .null => false
  | .bool b => b
  | .num n => n != 0
  | .str s => s != ""
  | .arr _ => true
  | .obj _ => true

mutual

/-- JavaScript string coercion `String(x)`, as performed by `new Error(x)`
on a non-string argument. -/
def jsToString : JsVal → String
  | .undefined => "undefined"
  | .null => "null"
  | .bool b => if b then "true" else "false"
  | .num n => toString n
  | .str s => s
  | .arr xs => jsArrJoin xs
  | .obj _ => "[object Object]"

/-- `Array.prototype.join` with the default comma separator, as used by the
string coercion of an array: `null` and `undefined` elements print empty. -/
def jsArrJoin : List JsVal → String
  | [] => ""
  | [.undefined] => ""
  | [.null] => ""
  | [v] => jsToString v
  | .undefined :: vs => "," ++ jsArrJoin vs
  | .null :: vs => "," ++ jsArrJoin vs
  | v :: vs => jsToString v ++ "," ++ jsArrJoin vs

end

/-- A thrown JavaScript error: whether it is a `TypeError` (the class thrown
by a failed `fetch` and by property access on `null`/`undefined`), and its
`message`. -/
structure JsError where
  isTypeError : Bool
  message : String
deriving DecidableEq

/-- First-match lookup in an object field list (parsed JSON objects have
distinct keys, so first match is the only match). -/
def lookupField : List (String × JsVal) → String → Option JsVal
  | [], _ => none
  | (k, v) :: rest, key => if k = key then some v else lookupField rest key

/-- JavaScript property read `x.key`: throws a TypeError on `null` or
`undefined`, yields the field on an object (or `undefined` when absent), and
yields `undefined` on other primitives and arrays (whose own properties do not
include the keys the wrapper reads). -/
def jsMember : JsVal → String → Except JsError JsVal
  | .null, key =>
      .error ⟨true, "Cannot read properties of null (reading " ++ key ++ ")"⟩
  | .undefined, key =>
      .error ⟨true, "Cannot read properties of undefined (reading " ++ key ++ ")"⟩
  | .obj fs, key => .ok ((lookupField fs key).getD .undefined)
  | _, _ => .ok .undefined

/-- Whether the character list `pat` is a prefix of `text`. -/
def charsIsPrefix : List Char → List Char → Bool
  | [], _ => true
  | _ :: _, [] => false
  | p :: ps, c :: cs => p = c && charsIsPrefix ps cs

/-- Whether `pat` occurs as a contiguous sublist of `text`. -/
def charsContains (text pat : List Char) : Bool :=
  if charsIsPrefix pat text then true
  else
    match text with
    | [] => false
    | _ :: rest => charsContains rest pat

/-- JavaScript `s.includes(sub)`: substring containment. -/
def strIncludes (s sub : String) : Bool :=
  charsContains s.data sub.data

/-! ## Local storage and headers -/

/-- Browser local storage, as a key/value association list. -/
def Storage := List (String × String)

/-- First-match lookup in a string association list (used for local storage
and for header records; both have distinct keys in the modelled runtime). -/
def hLookup : List (String × String) → String → Option String
  | [], _ => none
  | (k, v) :: rest, key => if k = key then some v else hLookup rest key

/-- `localStorage.getItem(key)`: returns the stored value (or `null`, here
`none`) and leaves the storage unchanged. Returned as a pair so that the
storage state is threaded explicitly through the request. -/
def storageGetItem (s : Storage) (key : String) : Option String × Storage :=
  (hLookup s key, s)

/-- JavaScript property assignment `rec[k] = v` on a plain-object record:
overwrites the value in place if the key is present (records built by the
wrapper have distinct keys), otherwise appends the new entry last. Object
spread `{...a, ...b}` assigns the properties of `b` onto a copy of `a` in
order, which `mergeHeaders` folds with this operation. -/
def setHeader : List (String × String) → String → String → List (String × String)
  | [], k, v => [(k, v)]
  | (k0, v0) :: rest, k, v =>
      if k0 = k then (k, v) :: rest else (k0, v0) :: setHeader rest k v

/-- The header record `{...base, ...overrides}` built by `makeRequest` when
calling `fetch`: the caller-supplied headers are assigned over the defaults. -/
def mergeHeaders (base overrides : List (String × String)) : List (String × String) :=
  overrides.foldl (fun acc p => setHeader acc p.1 p.2) base

/-- The `defaultHeaders` record of `makeRequest`, given the token read from
local storage: JSON content-type and accept headers, plus
`Authorization: Bearer <token>` when the token is truthy (present and
non-empty). -/
def defaultHeadersOfToken (token : Option String) : List (String × String) :=
  let base := [("Content-Type", "application/json"), ("Accept", "application/json")]
  match token with
  | some t => if t = "" then base else setHeader base "Authorization" ("Bearer " ++ t)
  | none => base

/-- The default headers as a function of the local storage contents
(`makeRequest` reads the token from the storage key `auth_token`). -/
def defaultHeaders (s : Storage) : List (String × String) :=
  defaultHeadersOfToken (storageGetItem s "auth_token").1

/-! ## Requests, responses and the makeRequest pipeline -/

/-- The backend base URL of the client. -/
def API_BASE_URL : String :=
  "https://groceryapp-production-d3fc.up.railway.app/api"

/-- The fixed connectivity message raised for a recognised network failure. -/
def networkErrorMessage : String :=
  "Network error: Unable to connect to server. Please check your internet connection."

/-- The `RequestInit` options a caller passes to `makeRequest`: method, body
and extra headers. (`fetch` defaults the method to GET when absent.) -/
structure RequestOptions where
  method : String := "GET"
  body : Option String := none
  headers : List (String × String) := []

/-- The request actually handed to `fetch`: the resolved URL and the merged
header record. -/
structure FetchRequest where
  url : String
  method : String
  body : Option String
  headers : List (String × String)

/-- An HTTP response as observed by the wrapper: the status code, the
`content-type` header (absent ⇒ `none`), the value `response.json()` parses
the body to, and the string `response.text()` yields. Only the body accessor
selected by the content-type check is ever consulted. -/
structure HttpResponse where
  status : Nat
  contentType : Option String
  jsonBody : JsVal
  textBody : String

/-- The outcome of the `fetch` call itself: the promise either resolves with
a response or rejects with a JavaScript error (a `TypeError` for
transport-level failures). -/
inductive FetchOutcome where
  | success : HttpResponse → FetchOutcome
  | failure : JsError → FetchOutcome

/-- The settled result of a `makeRequest` promise. -/
inductive RequestResult where
  | resolved : JsVal → RequestResult
  | rejected : JsError → RequestResult

/-- The rejection message of a settled request, if it was rejected. -/
def RequestResult.errMessageOf : RequestResult → Option String
  | .resolved _ => none
  | .rejected e => some e.message

/-- `response.ok`: status in the 2xx range. -/
def respOk (r : HttpResponse) : Bool :=
  200 ≤ r.status && r.status ≤ 299

/-- The content-type check `contentType?.includes(...)` for `application/json`
(optional chaining: an absent header is not JSON). -/
def ctIncludesJson (r : HttpResponse) : Bool :=
  match r.contentType with
  | some ct => strIncludes ct "application/json"
  | none => false

/-- `responseData`: the JSON-parsed body when the content-type includes
`application/json`, otherwise the wrapper object `{message: <text>}`. -/
def parseBody (r : HttpResponse) : JsVal :=
  if ctIncludesJson r then r.jsonBody else .obj [("message", .str r.textBody)]

/-- The error-text extraction
`responseData.errorMessage || responseData.message || <default>`:
each property read can throw (on a null body), `||` takes the first truthy
operand, and the chosen value is coerced to the error message string. -/
def errorText (d : JsVal) : Except JsError String :=
  match jsMember d "errorMessage" with
  | .error e => .error e
  | .ok em =>
      if jsTruthy em then .ok (jsToString em)
      else
        match jsMember d "message" with
        | .error e => .error e
        | .ok m => if jsTruthy m then .ok (jsToString m) else .ok "Request failed"

/-- The `catch` clause of `makeRequest`: a `TypeError` whose message contains
`Failed to fetch` is replaced by a fresh `Error` with the fixed connectivity
message; every other error is rethrown unchanged. -/
def applyCatch (e : JsError) : JsError :=
  if e.isTypeError && strIncludes e.message "Failed to fetch" then
    ⟨false, networkErrorMessage⟩
  else e

/-- The `try` block of `makeRequest` after `fetch` resolved: parse the body,
return it on a 2xx status, otherwise throw an `Error` carrying the extracted
message (a throw from the extraction itself propagates); every throw passes
through the `catch` clause. -/
def respondResult (r : HttpResponse) : RequestResult :=
  if respOk r then .resolved (parseBody r)
  else
    match errorText (parseBody r) with
    | .ok msg => .rejected (applyCatch ⟨false, msg⟩)
    | .error e => .rejected (applyCatch e)

/-- The result of `makeRequest` as a function of the fetch outcome: a
rejection of the `fetch` promise itself also passes through the `catch`
clause. -/
def makeRequestResult (w : FetchOutcome) : RequestResult :=
  match w with
  | .failure err => .rejected (applyCatch err)
  | .success resp => respondResult resp

/-- The request `makeRequest` hands to `fetch`: base URL plus endpoint, the
method and body from the options, and the default headers with the
caller-supplied headers assigned over them. -/
def builtRequest (s : Storage) (endpoint : String) (o : RequestOptions) : FetchRequest :=
  { url := API_BASE_URL ++ endpoint
    method := o.method
    body := o.body
    headers := mergeHeaders (defaultHeaders s) o.headers }

/-- The full `makeRequest` call with the storage state threaded explicitly:
returns the settled result, the request handed to `fetch`, the storage after
the call, and the list of storage keys read. The only storage operation the
body performs is `localStorage.getItem` on `auth_token`. -/
def makeRequestWithStore (s : Storage) (endpoint : String) (o : RequestOptions)
    (w : FetchOutcome) : RequestResult × FetchRequest × Storage × List String :=
  ( makeRequestResult w
  , { url := API_BASE_URL ++ endpoint
      method := o.method
      body := o.body
      headers := mergeHeaders (defaultHeadersOfToken (storageGetItem s "auth_token").1) o.headers }
  , (storageGetItem s "auth_token").2
  , ["auth_token"] )

/-- The settled result of `ApiService.makeRequest(endpoint, options)` in a
world where local storage holds `s` and the network behaves as `w`. -/
def makeRequest (s : Storage) (endpoint : String) (o : RequestOptions)
    (w : FetchOutcome) : RequestResult :=
  (makeRequestWithStore s endpoint o w).1

/-! ## getUsers -/

/-- The optional filter parameters of `ApiService.getUsers`. -/
structure GetUsersRequest where
  role : Option String := none
  user_id : Option Int := none

/-- The query pairs appended by `getUsers`: `role` first, then `user_id`,
each appended only when the optional-chained value `params?.role` resp.
`params?.user_id` is truthy (so an absent params object, an absent field, an
empty-string role, and a zero user id all append nothing). -/
def getUsersQueryPairs : Option GetUsersRequest → List (String × String)
  | none => []
  | some p =>
      (match p.role with
       | some r => if r = "" then [] else [("role", r)]
       | none => []) ++
      (match p.user_id with
       | some n => if n = 0 then [] else [("user_id", toString n)]
       | none => [])

/-- The endpoint `getUsers` requests: `/auth/getUsers`, with a `?`-prefixed
query string exactly when the serialised query parameters are non-empty.
(URL-encoding of values by `URLSearchParams` is not modelled; no claim
involves a value it would alter.) -/
def getUsersEndpoint (params : Option GetUsersRequest) : String :=
  let queryString :=
    String.intercalate "&" ((getUsersQueryPairs params).map fun p => p.1 ++ "=" ++ p.2)
  "/auth/getUsers" ++ (if queryString = "" then "" else "?" ++ queryString)

/-- `ApiService.getUsers(params)`: a GET `makeRequest` to the built endpoint. -/
def getUsers (s : Storage) (params : Option GetUsersRequest) (w : FetchOutcome) :
    RequestResult :=
  makeRequest s (getUsersEndpoint params) { method := "GET" } w

/-! ## ForgotPasswordPage -/

/-- The component state of `ForgotPasswordPage`: the three controlled inputs
and the `isLoading` / `isSuccess` / `error` flags. The `error` state is kept
as the displayed string (a non-string value passed to `setError` renders via
its string coercion). -/
structure FPState where
  email : String
  newPassword : String
  confirmPassword : String
  isLoading : Bool
  isSuccess : Bool
  error : String
deriving DecidableEq

/-- The payload `{ email, newPassword }` the component passes to
`apiService.forgotPassword`. -/
structure ForgotPayload where
  email : String
  newPassword : String
deriving DecidableEq

/-- What the component renders: the success card (which displays the email
held in state) when `isSuccess` is set, otherwise the form with its error
banner and loading flag. -/
inductive FPView where
  | success : String → FPView
  | form : String → Bool → FPView
deriving DecidableEq

/-- The rendered view of a component state. -/
def render (s : FPState) : FPView :=
  if s.isSuccess then .success s.email else .form s.error s.isLoading

/-- The `handleSubmit` handler: validate locally (mismatch first, then the
8-character minimum) and return without any network call on failure;
otherwise set the loading flag, clear the error, call
`apiService.forgotPassword({email, newPassword})` (whose settled result is
the `outcome` parameter), branch on the truthiness of `response.success`,
catch any thrown error into the error banner, and clear the loading flag in
the `finally` clause. Returns the new state and the payload sent over the
network (`none` when no call was made). -/
def handleSubmit (s : FPState) (outcome : RequestResult) :
    FPState × Option ForgotPayload :=
  if s.newPassword ≠ s.confirmPassword then
    ({ s with error := "Passwords do not match" }, none)
  else if s.newPassword.length < 8 then
    ({ s with error := "Password must be at least 8 characters long" }, none)
  else
    let s1 := { s with isLoading := true, error := "" }
    let s2 :=
      match outcome with
      | .resolved v =>
          match jsMember v "success" with
          | .error e => { s1 with error := e.message }
          | .ok sv =>
              if jsTruthy sv then { s1 with isSuccess := true }
              else
                match jsMember v "message" with
                | .error e => { s1 with error := e.message }
                | .ok m =>
                    { s1 with
                      error := if jsTruthy m then jsToString m else "Failed to reset password" }
      | .rejected e => { s1 with error := e.message }
    ({ s2 with isLoading := false }, some ⟨s.email, s.newPassword⟩)

/-! ## Lookup lemmas for header records -/

/-- Assigning a header overrides exactly that key and leaves every other
lookup unchanged. -/
theorem hLookup_setHeader (l : List (String × String)) (k v key : String) :
    hLookup (setHeader l k v) key = if key = k then some v else hLookup l key := by
  induction l with
  | nil =>
      by_cases h : k = key
      · simp [setHeader, hLookup, h]
      · simp [setHeader, hLookup, h, Ne.symm h]
  | cons p rest ih =>
      obtain ⟨k0, v0⟩ := p
      by_cases h0 : k0 = k
      · subst h0
        by_cases hk : key = k0
        · subst hk
          simp [setHeader, hLookup]
        · simp [setHeader, hLookup, hk, Ne.symm hk]
      · by_cases hk : key = k0
        · subst hk
          simp [setHeader, hLookup, h0, Ne.symm h0]
        · simp [setHeader, hLookup, h0, hk, Ne.symm hk, ih]

/-- A key that occurs nowhere in a record looks up to `none`. -/
theorem hLookup_not_mem (l : List (String × String)) (key : String)
    (h : key ∉ l.map Prod.fst) : hLookup l key = none := by
  induction l with
  | nil => rfl
  | cons p rest ih =>
      obtain ⟨k0, v0⟩ := p
      simp only [List.map_cons, List.mem_cons] at h
      push_neg at h
      simp [hLookup, Ne.symm h.1, ih h.2]

/-- Looking up a key in a spread-merged record yields the override value when
the key is overridden, and the base value otherwise (the override record has
distinct keys, as a JavaScript object literal does). -/
theorem hLookup_mergeHeaders (ov base : List (String × String)) (key : String)
    (hnd : (ov.map Prod.fst).Nodup) :
    hLookup (mergeHeaders base ov) key =
      match hLookup ov key with
      | some v => some v
      | none => hLookup base key := by
  induction ov generalizing base with
  | nil => simp [mergeHeaders, hLookup]
  | cons p rest ih =>
      obtain ⟨k0, v0⟩ := p
      simp only [List.map_cons, List.nodup_cons] at hnd
      have hstep : mergeHeaders base ((k0, v0) :: rest)
          = mergeHeaders (setHeader base k0 v0) rest := rfl
      rw [hstep, ih (setHeader base k0 v0) hnd.2]
      by_cases hk : key = k0
      · subst hk
        rw [hLookup_not_mem rest key hnd.1, hLookup_setHeader]
        simp [hLookup]
      · rw [hLookup_setHeader]
        have hov : hLookup ((k0, v0) :: rest) key = hLookup rest key := by
          simp [hLookup, Ne.symm hk]
        rw [hov, if_neg hk]

/-! ## Claims about makeRequest -/

/-- Claim C1 (amended): for every call reaching the server and receiving a
non-2xx response whose parsed JSON body contains a field `errorMessage` whose
value is a nonempty string `X`, `makeRequest` rejects with an `Error` whose
message is exactly `X`. (The claim as frozen also covered the empty string,
where the `||` chain skips the falsy field; see the counterexample.) -/
theorem makeRequest_errorMessage_nonempty (s : Storage) (endpoint : String)
    (o : RequestOptions) (resp : HttpResponse) (fs : List (String × JsVal)) (X : String)
    (hok : respOk resp = false) (hct : ctIncludesJson resp = true)
    (hbody : resp.jsonBody = .obj fs)
    (hfield : lookupField fs "errorMessage" = some (.str X)) (hX : X ≠ "") :
    makeRequest s endpoint o (.success resp) = .rejected ⟨false, X⟩ := by
  have hparse : parseBody resp = .obj fs := by simp [parseBody, hct, hbody]
  have htr : jsTruthy (JsVal.str X) = true := by simp [jsTruthy, hX]
  have het : errorText (parseBody resp) = .ok X := by
    rw [hparse]
    simp [errorText, jsMember, hfield, htr, jsToString]
  simp [makeRequest, makeRequestWithStore, makeRequestResult, respondResult, hok, het,
    applyCatch]

/-- Witness for C1 at a concrete 400 response carrying
`{errorMessage: "Invalid credentials"}`. -/
theorem makeRequest_errorMessage_nonempty_witness :
    respOk ⟨400, some "application/json",
        .obj [("errorMessage", JsVal.str "Invalid credentials")], ""⟩ = false ∧
    ("Invalid credentials" : String) ≠ "" ∧
    makeRequest [] "/auth/login" {}
        (.success ⟨400, some "application/json",
          .obj [("errorMessage", JsVal.str "Invalid credentials")], ""⟩)
      = .rejected ⟨false, "Invalid credentials"⟩ :=
  ⟨by decide, by decide,
    makeRequest_errorMessage_nonempty [] "/auth/login" {} _ _ "Invalid credentials"
      (by decide) (by decide) rfl rfl (by decide)⟩

/-- Counterexample to claim C1 as frozen: a 400 JSON response with body
`{errorMessage: "", message: "other"}` contains the field `errorMessage` with
value `""`, yet the call rejects with `"other"` (the empty string is falsy,
so the `||` chain moves on), not with the `errorMessage` value. -/
theorem makeRequest_empty_errorMessage_cx :
    lookupField [("errorMessage", JsVal.str ""), ("message", JsVal.str "other")]
        "errorMessage" = some (.str "") ∧
    (makeRequest [] "/auth/login" {}
        (.success ⟨400, some "application/json",
          .obj [("errorMessage", JsVal.str ""), ("message", JsVal.str "other")], ""⟩)).errMessageOf
      = some "other" ∧
    ("other" : String) ≠ "" :=
  ⟨rfl, rfl, by decide⟩

/-- Claim C2 (amended): for every non-2xx response whose parsed body supports
property reads (it is not `null`) and has neither a truthy `errorMessage` nor
a truthy `message` field, `makeRequest` rejects with the default message
`Request failed`. (The claim as frozen also covered a JSON `null` body, on
which the extraction itself throws a TypeError; see the counterexample.) -/
theorem makeRequest_default_message (s : Storage) (endpoint : String) (o : RequestOptions)
    (resp : HttpResponse) (em m : JsVal)
    (hok : respOk resp = false)
    (hem : jsMember (parseBody resp) "errorMessage" = .ok em) (htem : jsTruthy em = false)
    (hm : jsMember (parseBody resp) "message" = .ok m) (htm : jsTruthy m = false) :
    makeRequest s endpoint o (.success resp) = .rejected ⟨false, "Request failed"⟩ := by
  have het : errorText (parseBody resp) = .ok "Request failed" := by
    simp [errorText, hem, htem, hm, htm]
  simp [makeRequest, makeRequestWithStore, makeRequestResult, respondResult, hok, het,
    applyCatch]

/-- Witness for C2 at a concrete 404 JSON response with the empty object
body, where both field reads yield `undefined`. -/
theorem makeRequest_default_message_witness :
    respOk ⟨404, some "application/json", .obj [], ""⟩ = false ∧
    jsMember (parseBody ⟨404, some "application/json", .obj [], ""⟩) "errorMessage"
      = .ok .undefined ∧
    makeRequest [] "/auth/getUsers" {}
        (.success ⟨404, some "application/json", .obj [], ""⟩)
      = .rejected ⟨false, "Request failed"⟩ :=
  ⟨by decide, rfl,
    makeRequest_default_message [] "/auth/getUsers" {} _ .undefined .undefined
      (by decide) rfl (by decide) rfl (by decide)⟩

/-- Counterexample to claim C2 as frozen: a 500 JSON response whose body is
the JSON value `null` has no message field of any kind, yet the call rejects
with the TypeError raised by reading `errorMessage` off `null`, not with
`Request failed`. -/
theorem makeRequest_null_body_cx :
    (makeRequest [] "/auth/login" {}
        (.success ⟨500, some "application/json", .null, ""⟩)).errMessageOf
      = some "Cannot read properties of null (reading errorMessage)" ∧
    "Cannot read properties of null (reading errorMessage)" ≠ "Request failed" :=
  ⟨rfl, by decide⟩

/-- Claim C3 (amended): a rejection of the `fetch` promise by a `TypeError`
whose message contains `Failed to fetch` is replaced by the fixed
connectivity message. (The claim as frozen said this happens for every
transport failure regardless of its message text; the `catch` clause only
recognises messages containing `Failed to fetch` and rethrows every other
transport error raw, see the counterexample.) -/
theorem makeRequest_network_error_fixed (s : Storage) (endpoint : String)
    (o : RequestOptions) (err : JsError)
    (h1 : err.isTypeError = true) (h2 : strIncludes err.message "Failed to fetch" = true) :
    makeRequest s endpoint o (.failure err) = .rejected ⟨false, networkErrorMessage⟩ := by
  simp [makeRequest, makeRequestWithStore, makeRequestResult, applyCatch, h1, h2]

/-- Witness for C3 with the transport error `TypeError: Failed to fetch`. -/
theorem makeRequest_network_error_fixed_witness :
    (⟨true, "Failed to fetch"⟩ : JsError).isTypeError = true ∧
    strIncludes "Failed to fetch" "Failed to fetch" = true ∧
    makeRequest [] "/auth/login" {} (.failure ⟨true, "Failed to fetch"⟩)
      = .rejected ⟨false, networkErrorMessage⟩ :=
  ⟨rfl, by decide,
    makeRequest_network_error_fixed [] "/auth/login" {} ⟨true, "Failed to fetch"⟩
      rfl (by decide)⟩

/-- Counterexample to claim C3 as frozen: a transport-level rejection whose
TypeError message reads `NetworkError when attempting to fetch resource.`
(the Firefox wording) is rethrown raw, not replaced by the fixed
connectivity message. -/
theorem makeRequest_raw_transport_error_cx :
    (makeRequest [] "/auth/login" {}
        (.failure ⟨true, "NetworkError when attempting to fetch resource."⟩)).errMessageOf
      = some "NetworkError when attempting to fetch resource." ∧
    "NetworkError when attempting to fetch resource." ≠ networkErrorMessage :=
  ⟨rfl, by decide⟩

/-- Claim C4: for every 2xx response, `makeRequest` resolves with the parsed
body as-is, with no schema validation: the JSON-parsed body when the
content-type includes `application/json`, otherwise `{message: <text>}`. -/
theorem makeRequest_success_passthrough (s : Storage) (endpoint : String)
    (o : RequestOptions) (resp : HttpResponse) (hok : respOk resp = true) :
    makeRequest s endpoint o (.success resp) = .resolved (parseBody resp) ∧
    (ctIncludesJson resp = true → parseBody resp = resp.jsonBody) ∧
    (ctIncludesJson resp = false →
      parseBody resp = .obj [("message", .str resp.textBody)]) := by
  refine ⟨?_, fun h => by simp [parseBody, h], fun h => by simp [parseBody, h]⟩
  simp [makeRequest, makeRequestWithStore, makeRequestResult, respondResult, hok]

/-- Witness for C4 at a concrete 200 plain-text response. -/
theorem makeRequest_success_passthrough_witness :
    respOk ⟨200, none, .null, "pong"⟩ = true ∧
    makeRequest [] "/category/getAll" {} (.success ⟨200, none, .null, "pong"⟩)
      = .resolved (parseBody ⟨200, none, .null, "pong"⟩) :=
  ⟨by decide,
    (makeRequest_success_passthrough [] "/category/getAll" {} _ (by decide)).1⟩

/-- Claim C5: the headers handed to `fetch` are the default headers with the
caller-supplied headers spread over them; a header name defined by the caller
looks up to the caller value, and any other name looks up to its default.
(The caller record is a JavaScript object literal, hence its keys are
distinct.) -/
theorem makeRequest_header_merge (s : Storage) (endpoint : String) (o : RequestOptions)
    (key : String) (hnd : (o.headers.map Prod.fst).Nodup) :
    (builtRequest s endpoint o).headers = mergeHeaders (defaultHeaders s) o.headers ∧
    hLookup (builtRequest s endpoint o).headers key =
      (match hLookup o.headers key with
       | some v => some v
       | none => hLookup (defaultHeaders s) key) :=
  ⟨rfl, hLookup_mergeHeaders o.headers (defaultHeaders s) key hnd⟩

/-- Witness for C5: with a stored token and a caller override of `Accept`,
the merged headers keep the caller value for `Accept` and the default bearer
token for `Authorization`. -/
theorem makeRequest_header_merge_witness :
    (([("Accept", "text/plain")] : List (String × String)).map Prod.fst).Nodup ∧
    hLookup (builtRequest [("auth_token", "tok")] "/auth/login"
        { method := "POST", headers := [("Accept", "text/plain")] }).headers "Accept"
      = some "text/plain" ∧
    hLookup (builtRequest [("auth_token", "tok")] "/auth/login"
        { method := "POST", headers := [("Accept", "text/plain")] }).headers "Authorization"
      = some "Bearer tok" := by
  refine ⟨by decide, ?_, ?_⟩
  · rw [(makeRequest_header_merge [("auth_token", "tok")] "/auth/login"
      { method := "POST", headers := [("Accept", "text/plain")] } "Accept" (by decide)).2]
    rfl
  · rw [(makeRequest_header_merge [("auth_token", "tok")] "/auth/login"
      { method := "POST", headers := [("Accept", "text/plain")] } "Authorization" (by decide)).2]
    rfl

/-! ## Claims about ForgotPasswordPage, storage effects and getUsers -/

/-- Claim C6: a submission with mismatched passwords, or with a new password
under 8 characters, makes no network call, and the matching validation
message is shown (the mismatch check runs first, so it also decides a
submission that violates both). -/
theorem handleSubmit_validation_no_call (s : FPState) (w : RequestResult)
    (h : s.newPassword ≠ s.confirmPassword ∨ s.newPassword.length < 8)
    (hsu : s.isSuccess = false) :
    (handleSubmit s w).2 = none ∧
    (s.newPassword ≠ s.confirmPassword →
      (handleSubmit s w).1.error = "Passwords do not match" ∧
      render (handleSubmit s w).1 = .form "Passwords do not match" s.isLoading) ∧
    (s.newPassword = s.confirmPassword → s.newPassword.length < 8 →
      (handleSubmit s w).1.error = "Password must be at least 8 characters long" ∧
      render (handleSubmit s w).1
        = .form "Password must be at least 8 characters long" s.isLoading) := by
  unfold handleSubmit
  by_cases hne : s.newPassword = s.confirmPassword
  · rw [if_neg (not_not_intro hne)]
    have hlen : s.newPassword.length < 8 := by
      rcases h with h | h
      · exact absurd hne h
      · exact h
    rw [if_pos hlen]
    refine ⟨rfl, fun hc => absurd hne hc, fun _ _ => ⟨rfl, ?_⟩⟩
    simp [render, hsu]
  · rw [if_pos hne]
    refine ⟨rfl, fun _ => ⟨rfl, ?_⟩, fun hc _ => absurd hc hne⟩
    simp [render, hsu]

/-- Witness for C6 at a concrete mismatched submission. -/
theorem handleSubmit_validation_no_call_witness :
    ("pw1" : String) ≠ "pw2" ∧
    (handleSubmit ⟨"a@b.c", "pw1", "pw2", false, false, ""⟩ (.rejected ⟨false, "x"⟩)).2
      = none ∧
    (handleSubmit ⟨"a@b.c", "pw1", "pw2", false, false, ""⟩ (.rejected ⟨false, "x"⟩)).1.error
      = "Passwords do not match" := by
  have h := handleSubmit_validation_no_call ⟨"a@b.c", "pw1", "pw2", false, false, ""⟩
    (.rejected ⟨false, "x"⟩) (Or.inl (by decide)) rfl
  exact ⟨by decide, h.1, (h.2.1 (by decide)).1⟩

/-- Claim C7 (amended): when validation passes and the forgot-password call
resolves with a response whose `success` field is truthy, the handler sends
`{email, newPassword}` from the form state and the component renders the
success view displaying the submitted email. (The claim as frozen promised
the success view for every resolution; a resolved response with a falsy
`success` puts the component in the error state instead, see the
counterexample.) -/
theorem handleSubmit_success_view (s : FPState) (v sv : JsVal)
    (hm : s.newPassword = s.confirmPassword) (hl : ¬ s.newPassword.length < 8)
    (hsv : jsMember v "success" = .ok sv) (ht : jsTruthy sv = true) :
    (handleSubmit s (.resolved v)).2 = some ⟨s.email, s.newPassword⟩ ∧
    render (handleSubmit s (.resolved v)).1 = .success s.email := by
  unfold handleSubmit
  rw [if_neg (not_not_intro hm), if_neg hl]
  simp [hsv, ht, render]

/-- Witness for C7 at a concrete valid submission resolving with
`{success: true}`. -/
theorem handleSubmit_success_view_witness :
    jsMember (.obj [("success", JsVal.bool true)]) "success" = .ok (JsVal.bool true) ∧
    (handleSubmit ⟨"user@x.io", "password1", "password1", false, false, ""⟩
        (.resolved (.obj [("success", JsVal.bool true)]))).2
      = some ⟨"user@x.io", "password1"⟩ ∧
    render (handleSubmit ⟨"user@x.io", "password1", "password1", false, false, ""⟩
        (.resolved (.obj [("success", JsVal.bool true)]))).1
      = .success "user@x.io" := by
  have h := handleSubmit_success_view ⟨"user@x.io", "password1", "password1", false, false, ""⟩
    (.obj [("success", JsVal.bool true)]) (JsVal.bool true) rfl (by decide) rfl (by decide)
  exact ⟨rfl, h.1, h.2⟩

/-- Counterexample to claim C7 as frozen: the call resolves (with
`{success: false, message: "Reset failed"}`), yet the component does not
transition to the success view: it stays on the form and shows the error. -/
theorem handleSubmit_resolved_not_success_cx :
    (handleSubmit ⟨"a@b.c", "password1", "password1", false, false, ""⟩
        (.resolved (.obj [("success", JsVal.bool false),
          ("message", JsVal.str "Reset failed")]))).1.isSuccess = false ∧
    render (handleSubmit ⟨"a@b.c", "password1", "password1", false, false, ""⟩
        (.resolved (.obj [("success", JsVal.bool false),
          ("message", JsVal.str "Reset failed")]))).1
      = .form "Reset failed" false :=
  ⟨by decide, by decide⟩

/-- Claim C8: a `makeRequest` call leaves local storage unchanged whatever
the outcome, and the only storage key it reads is `auth_token`. -/
theorem makeRequest_storage_readonly (s : Storage) (endpoint : String)
    (o : RequestOptions) (w : FetchOutcome) :
    (makeRequestWithStore s endpoint o w).2.2.1 = s ∧
    (makeRequestWithStore s endpoint o w).2.2.2 = ["auth_token"] :=
  ⟨rfl, rfl⟩

/-- Claim C9: `getUsers` appends query parameters only for truthy values: a
zero `user_id` or an empty `role` yields the same endpoint as the absent
parameter, and `getUsers({user_id: 0})` requests plain `/auth/getUsers`. -/
theorem getUsers_falsy_params_omitted (r : Option String) (u : Option Int) :
    getUsersEndpoint (some { role := r, user_id := some 0 })
      = getUsersEndpoint (some { role := r, user_id := none }) ∧
    getUsersEndpoint (some { role := some "", user_id := u })
      = getUsersEndpoint (some { role := none, user_id := u }) ∧
    getUsersEndpoint (some { role := none, user_id := some 0 }) = "/auth/getUsers" :=
  ⟨rfl, rfl, rfl⟩

/-- Claim C10: with the empty string stored under `auth_token`, no
`Authorization` header is attached and the request equals the one built with
no stored token at all; the bearer header is attached exactly for a nonempty
stored token. -/
theorem makeRequest_empty_token_no_auth (s s2 : Storage) (endpoint : String)
    (o : RequestOptions) (t : String)
    (h : hLookup s "auth_token" = some "") (h2 : hLookup s2 "auth_token" = none)
    (ht : t ≠ "") :
    hLookup (defaultHeaders s) "Authorization" = none ∧
    builtRequest s endpoint o = builtRequest s2 endpoint o ∧
    hLookup (defaultHeadersOfToken (some t)) "Authorization" = some ("Bearer " ++ t) := by
  have hd : defaultHeaders s = defaultHeadersOfToken none := by
    simp [defaultHeaders, storageGetItem, h, defaultHeadersOfToken]
  have hd2 : defaultHeaders s2 = defaultHeadersOfToken none := by
    simp [defaultHeaders, storageGetItem, h2]
  refine ⟨by rw [hd]; rfl, ?_, ?_⟩
  · unfold builtRequest
    rw [hd, hd2]
  · rw [show defaultHeadersOfToken (some t)
        = setHeader [("Content-Type", "application/json"),
            ("Accept", "application/json")] "Authorization" ("Bearer " ++ t) by
      simp [defaultHeadersOfToken, ht]]
    rw [hLookup_setHeader]
    simp

/-- Witness for C10 at a concrete storage holding an empty token, compared
with the empty storage, and a concrete nonempty token. -/
theorem makeRequest_empty_token_no_auth_witness :
    hLookup [("auth_token", "")] "auth_token" = some "" ∧
    hLookup (defaultHeaders [("auth_token", "")]) "Authorization" = none ∧
    builtRequest [("auth_token", "")] "/auth/login" {} = builtRequest [] "/auth/login" {} ∧
    hLookup (defaultHeadersOfToken (some "tok")) "Authorization"
      = some ("Bearer " ++ "tok") := by
  have h := makeRequest_empty_token_no_auth [("auth_token", "")] [] "/auth/login" {} "tok"
    (by decide) (by decide) (by decide)
  exact ⟨by decide, h.1, h.2.1, h.2.2⟩
